import Mathlib

/-!
Verification of the gpuinfo-rs decode-and-resolve engine.

This file is a shallow embedding of the pure decode/resolve/assemble logic of
the repository (src/mali/parser.rs, src/mali/database.rs, src/mali/query.rs,
src/adreno/parser.rs, src/adreno/database.rs, src/adreno/query.rs,
src/info.rs, src/error.rs).  Byte buffers are `List Nat` (each element a byte,
reduced mod 256 where the source reads it as `u8`), machine integers are `Nat`
with explicit `% 2^32` / `% 2^64` where the source truncates, and fallible Rust
functions return `Except GpuError`.
-/

namespace Gpuinfo

/-- Error taxonomy, from src/error.rs (only the variants reachable from the
embedded pure code; payloads that are `std::io::Error` in Rust do not occur
here). -/
inductive GpuError where
  | UnsupportedGpu (id : Nat) (cores : Nat)
  | InvalidData (msg : String)
  | DeviceNotFound
  | PermissionDenied
  | DriverNotSupported
  | InvalidPropertySize (size : Nat)
  | BufferTooSmall (expected : Nat) (actual : Nat)
  | UnsupportedArchitecture (chip_id : Nat) (architecture : String)
  deriving Repr, DecidableEq

/-- `true` exactly on `Except.ok` results. -/
def resultOk {α : Type} : Except GpuError α → Bool
  | .ok _ => true
  | .error _ => false

/-- Little-endian value of a byte list; each element is reduced mod 256,
matching the `u8` elements of a Rust byte slice
(`uNN::from_le_bytes`). -/
def leNat (bytes : List Nat) : Nat :=
  bytes.foldr (fun b acc => b % 256 + 256 * acc) 0

/-- The sub-slice `data[pos .. pos+n]`, as read by the parsers. -/
def readSlice (data : List Nat) (pos n : Nat) : List Nat :=
  (data.drop pos).take n

/-- Population count, fueled for kernel reducibility: the fuel bounds the
recursion depth (halving reaches 0 after at most `n` steps, so
`countOnes n = countOnesF n n` computes `n.count_ones`). -/
def countOnesF : Nat → Nat → Nat
  | 0, _ => 0
  | fuel + 1, n => if n = 0 then 0 else n % 2 + countOnesF fuel (n / 2)

/-- Population count (`u64::count_ones` in the source). -/
def countOnes (n : Nat) : Nat := countOnesF n n

/-- GPU vendor tag, from src/info.rs `GpuVendor`. -/
inductive GpuVendor where
  | Mali
  | Adreno
  | Unknown
  deriving Repr, DecidableEq

/-- Mali-specific detail block, from src/info.rs `MaliData`. -/
structure MaliData where
  gpu_id : Nat
  raw_gpu_id : Nat
  shader_core_mask : Nat
  num_l2_slices : Nat
  num_exec_engines : Nat
  num_fp32_fmas_per_core : Nat
  num_fp16_fmas_per_core : Nat
  num_texels_per_core : Nat
  num_pixels_per_core : Nat
  deriving Repr, DecidableEq

/-- Adreno-specific detail block, from src/info.rs `AdrenoData`. -/
structure AdrenoData where
  chip_id : Nat
  gpu_model_code : Nat
  mmu_enabled : Bool
  gmem_size_bytes : Nat
  spec_confidence : String
  stream_processors : Nat
  max_freq_mhz : Nat
  process_nm : Nat
  release_year : Nat
  snapdragon_models : List String
  deriving Repr, DecidableEq

/-- The canonical capability descriptor, from src/info.rs `GpuInfo`. -/
structure GpuInfo where
  vendor : GpuVendor
  gpu_name : String
  architecture : String
  architecture_major : Nat
  architecture_minor : Nat
  num_shader_cores : Nat
  num_l2_bytes : Nat
  num_bus_bits : Nat
  mali_data : Option MaliData
  adreno_data : Option AdrenoData
  deriving Repr, DecidableEq

/-- `GpuInfo::supports_fp16`, from src/info.rs: Mali descriptors consult the
detail block's `num_fp16_fmas_per_core`, Adreno descriptors the architecture
major version, anything else is `false`. -/
def GpuInfo.supports_fp16 (info : GpuInfo) : Bool :=
  match info.vendor with
  | .Mali =>
    match info.mali_data with
    | some mali => decide (0 < mali.num_fp16_fmas_per_core)
    | none => false
  | .Adreno => decide (6 ≤ info.architecture_major)
  | .Unknown => false

namespace Mali

/-- Parser configuration, from src/mali/parser.rs `ParserConfig`. -/
structure ParserConfig where
  lenient_mode : Bool
  validate_group_bounds : Bool
  accept_masks_without_groups : Bool
  skip_out_of_bounds_masks : Bool
  deriving Repr, DecidableEq

/-- `ParserConfig::PARITY` (lenient, matches libgpuinfo). -/
def ParserConfig.PARITY : ParserConfig :=
  { lenient_mode := true
    validate_group_bounds := false
    accept_masks_without_groups := true
    skip_out_of_bounds_masks := false }

/-- `ParserConfig::EXTENDED` (strict validation). -/
def ParserConfig.EXTENDED : ParserConfig :=
  { lenient_mode := false
    validate_group_bounds := true
    accept_masks_without_groups := false
    skip_out_of_bounds_masks := true }

/-- Parsed GPU properties, from src/mali/parser.rs `ParsedProperties`.
`gpu_id`, `raw_core_features`, `raw_thread_features` and `num_shader_cores`
are `u32` in the source, the rest `u64`. -/
structure ParsedProperties where
  gpu_id : Nat
  l2_log2_cache_size : Nat
  num_l2_slices : Nat
  raw_l2_features : Nat
  raw_core_features : Nat
  raw_gpu_id : Nat
  raw_thread_features : Nat
  num_shader_cores : Nat
  shader_core_mask : Nat
  deriving Repr, DecidableEq

/-- `ParsedProperties::default()` / `ParsedProperties::empty()`. -/
def ParsedProperties.empty : ParsedProperties :=
  { gpu_id := 0, l2_log2_cache_size := 0, num_l2_slices := 0
    raw_l2_features := 0, raw_core_features := 0, raw_gpu_id := 0
    raw_thread_features := 0, num_shader_cores := 0, shader_core_mask := 0 }

/-- `UnifiedPropParser::handle_core_mask`: decide whether a core-group mask
property (id 64..=79) is OR-accumulated into `shader_core_mask`, and
maintain the (otherwise unused) `core_masks_received` counter.  Returns the
updated properties and counter. -/
def handle_core_mask (config : ParserConfig) (prop_id value num_core_groups : Nat)
    (props : ParsedProperties) (core_masks_received : Nat) :
    ParsedProperties × Nat :=
  let group_idx := prop_id - 64
  let should_accept :=
    if num_core_groups = 0 then
      config.accept_masks_without_groups
    else if group_idx < num_core_groups then
      true
    else
      !config.skip_out_of_bounds_masks
  if should_accept then
    ({ props with shader_core_mask := props.shader_core_mask ||| value },
      if 0 < num_core_groups ∧ group_idx < num_core_groups then
        core_masks_received + 1
      else core_masks_received)
  else
    (props, core_masks_received)

/-- The property dispatch of `UnifiedPropParser::parse` (the `match
PropId::try_from(prop_id)` block): apply one decoded `(prop_id, value)` pair
to the accumulated state `(props, num_core_groups, core_masks_received)`.
`value as u32` truncations are `% 2^32`. -/
def applyProp (config : ParserConfig) (prop_id value : Nat)
    (props : ParsedProperties) (num_core_groups core_masks_received : Nat) :
    ParsedProperties × Nat × Nat :=
  if prop_id = 1 then
    ({ props with gpu_id := value % 2 ^ 32 }, num_core_groups, core_masks_received)
  else if prop_id = 14 then
    ({ props with l2_log2_cache_size := value }, num_core_groups, core_masks_received)
  else if prop_id = 15 then
    ({ props with num_l2_slices := value }, num_core_groups, core_masks_received)
  else if prop_id = 29 then
    ({ props with raw_l2_features := value }, num_core_groups, core_masks_received)
  else if prop_id = 30 then
    ({ props with raw_core_features := value % 2 ^ 32 }, num_core_groups, core_masks_received)
  else if prop_id = 55 then
    ({ props with raw_gpu_id := value }, num_core_groups, core_masks_received)
  else if prop_id = 59 then
    ({ props with raw_thread_features := value % 2 ^ 32 }, num_core_groups, core_masks_received)
  else if prop_id = 62 then
    (props, value, core_masks_received)
  else if 64 ≤ prop_id ∧ prop_id ≤ 79 then
    let r := handle_core_mask config prop_id value num_core_groups props core_masks_received
    (r.1, num_core_groups, r.2)
  else
    (props, num_core_groups, core_masks_received)

/-- Width class of a TLV key's low two bits (`match prop_size` in
`next_prop`). -/
def value_size_of (prop_size : Nat) : Nat :=
  if prop_size = 0 then 1
  else if prop_size = 1 then 2
  else if prop_size = 2 then 4
  else 8

/-- After the loop, `num_shader_cores` is recomputed from the mask
(`props.num_shader_cores = props.shader_core_mask.count_ones() as u32`). -/
def finalize (props : ParsedProperties) : ParsedProperties :=
  { props with num_shader_cores := countOnes props.shader_core_mask }

/-- The `while let` loop of `UnifiedPropParser::parse`, with
`UnifiedPropParser::next_prop`, `read_bytes` and `read_value` inlined.

Each iteration: if fewer than 4 bytes remain the loop ends (`Ok(None)`);
otherwise a 4-byte little-endian key is read; `prop_id = key >> 2`,
`prop_size = key & 3`.  The `match prop_size` arm `_` of `next_prop` is kept
(it is unreachable, since `key &&& 3 ≤ 3`): lenient mode ends the stream,
strict mode is `InvalidPropertySize`.  Reading the value short in lenient
mode sets `pos` to the end of the buffer and yields the value `0`
(`read_bytes` returns the empty slice, `read_value` maps it to 0); in strict
mode it is `BufferTooSmall` with expected `pos + size` and actual `len`.

The recursion is driven by a structural fuel parameter.  Every iteration
either ends the loop, advances `pos` by at least 5 bytes, or jumps `pos` to
the end of the buffer (after which the next iteration ends the loop), so
`data.length + 1` units of fuel are more than the loop can ever use; the
exhausted-fuel arm returns the same value as the loop's normal exit and is
unreachable from `parse_properties` (see `parseLoop_fuel_irrelevant`). -/
def parseLoop (data : List Nat) (config : ParserConfig) :
    Nat → Nat → ParsedProperties → Nat → Nat → Except GpuError ParsedProperties
  | 0, _, props, _, _ => .ok (finalize props)
  | fuel + 1, pos, props, num_core_groups, core_masks_received =>
    if data.length < pos + 4 then
      .ok (finalize props)
    else
      let key := leNat (readSlice data pos 4)
      let prop_id := key >>> 2
      let prop_size := key &&& 3
      if 3 < prop_size then
        if config.lenient_mode then .ok (finalize props)
        else .error (.InvalidPropertySize prop_size)
      else
        let vsize := value_size_of prop_size
        if data.length < pos + 4 + vsize then
          if config.lenient_mode then
            let s := applyProp config prop_id 0 props num_core_groups core_masks_received
            parseLoop data config fuel data.length s.1 s.2.1 s.2.2
          else
            .error (.BufferTooSmall (pos + 4 + vsize) data.length)
        else
          let value := leNat (readSlice data (pos + 4) vsize)
          let s := applyProp config prop_id value props num_core_groups core_masks_received
          parseLoop data config fuel (pos + 4 + vsize) s.1 s.2.1 s.2.2

/-- `parse_properties`: run the parser over the whole buffer. -/
def parse_properties (buffer : List Nat) (config : ParserConfig) :
    Except GpuError ParsedProperties :=
  parseLoop buffer config (buffer.length + 1) 0 ParsedProperties.empty 0 0

/-- `parse_properties_strict` (Extended mode). -/
def parse_properties_strict (buffer : List Nat) : Except GpuError ParsedProperties :=
  parse_properties buffer ParserConfig.EXTENDED

/-- `parse_properties_lenient` (Parity mode): errors are mapped to the empty
record. -/
def parse_properties_lenient (buffer : List Nat) : ParsedProperties :=
  match parse_properties buffer ParserConfig.PARITY with
  | .ok props => props
  | .error _ => ParsedProperties.empty

/-- Mirror of the parser's walk over the key/value chain: the expected length
carried by the first mid-value truncation (a 4-byte key is fully present but
its value bytes are not), or `none` when the stream ends at a record boundary
(fewer than 4 bytes left).  Same fuel discipline as `parseLoop`. -/
def truncExpectedF (data : List Nat) : Nat → Nat → Option Nat
  | 0, _ => none
  | fuel + 1, pos =>
    if data.length < pos + 4 then
      none
    else
      let key := leNat (readSlice data pos 4)
      let vsize := value_size_of (key &&& 3)
      if data.length < pos + 4 + vsize then
        some (pos + 4 + vsize)
      else
        truncExpectedF data fuel (pos + 4 + vsize)

/-- Truncation point of a whole buffer. -/
def truncExpected (data : List Nat) : Option Nat :=
  truncExpectedF data (data.length + 1) 0

/-- Static product-table row, from src/mali/database.rs `ProductEntry`.  The
four derivation callables take `(core_count, core_features,
thread_features)`. -/
structure ProductEntry where
  id : Nat
  mask : Nat
  min_cores : Nat
  name : String
  architecture : String
  get_num_fp32_fmas_per_engine : Nat → Nat → Nat → Nat
  get_num_texels : Nat → Nat → Nat → Nat
  get_num_pixels : Nat → Nat → Nat → Nat
  get_num_exec_engines : Nat → Nat → Nat → Nat

def MASK_OLD : Nat := 0xFFFF
def MASK_NEW : Nat := 0xF00F

def get_num_1 (_ _ _ : Nat) : Nat := 1
def get_num_2 (_ _ _ : Nat) : Nat := 2
def get_num_3 (_ _ _ : Nat) : Nat := 3
def get_num_4 (_ _ _ : Nat) : Nat := 4
def get_num_8 (_ _ _ : Nat) : Nat := 8
def get_num_16 (_ _ _ : Nat) : Nat := 16
def get_num_32 (_ _ _ : Nat) : Nat := 32
def get_num_64 (_ _ _ : Nat) : Nat := 64

def get_num_eng_g31 (core_count _ thread_features : Nat) : Nat :=
  if core_count = 1 ∧ thread_features &&& 0xFFFF = 0x2000 then 1 else 2

def get_num_eng_g51 (core_count _ thread_features : Nat) : Nat :=
  if core_count = 1 ∧ thread_features &&& 0xFFFF = 0x2000 then 1 else 3

def get_num_eng_g52 (_ core_features _ : Nat) : Nat := core_features &&& 0xF

def get_num_fma_g510 (_ core_features _ : Nat) : Nat :=
  match core_features &&& 0xF with
  | 0 => 16
  | 2 | 3 => 24
  | _ => 32

def get_num_tex_g510 (_ core_features _ : Nat) : Nat :=
  match core_features &&& 0xF with
  | 0 | 5 => 2
  | 1 | 2 | 6 => 4
  | _ => 8

def get_num_pix_g510 (_ core_features _ : Nat) : Nat :=
  match core_features &&& 0xF with
  | 0 | 1 | 5 | 6 => 2
  | _ => 4

def get_num_eng_g510 (_ core_features _ : Nat) : Nat :=
  match core_features &&& 0xF with
  | 0 | 1 | 5 | 6 => 1
  | _ => 2

/-- The static table `PRODUCT_VERSIONS` of src/mali/database.rs, in source
order. -/
def PRODUCT_VERSIONS : List ProductEntry := [
  ⟨0x6956, MASK_OLD, 1, "Mali-T600", "Midgard", get_num_4, get_num_1, get_num_1, get_num_2⟩,
  ⟨0x0620, MASK_OLD, 1, "Mali-T620", "Midgard", get_num_4, get_num_1, get_num_1, get_num_2⟩,
  ⟨0x0720, MASK_OLD, 1, "Mali-T720", "Midgard", get_num_4, get_num_1, get_num_1, get_num_1⟩,
  ⟨0x0750, MASK_OLD, 1, "Mali-T760", "Midgard", get_num_4, get_num_1, get_num_1, get_num_2⟩,
  ⟨0x0820, MASK_OLD, 1, "Mali-T820", "Midgard", get_num_4, get_num_1, get_num_1, get_num_1⟩,
  ⟨0x0830, MASK_OLD, 1, "Mali-T830", "Midgard", get_num_4, get_num_1, get_num_1, get_num_2⟩,
  ⟨0x0860, MASK_OLD, 1, "Mali-T860", "Midgard", get_num_4, get_num_1, get_num_1, get_num_2⟩,
  ⟨0x0880, MASK_OLD, 1, "Mali-T880", "Midgard", get_num_4, get_num_1, get_num_1, get_num_3⟩,
  ⟨0x6000, MASK_NEW, 1, "Mali-G71", "Bifrost", get_num_4, get_num_1, get_num_1, get_num_3⟩,
  ⟨0x6001, MASK_NEW, 1, "Mali-G72", "Bifrost", get_num_4, get_num_1, get_num_1, get_num_3⟩,
  ⟨0x7000, MASK_NEW, 1, "Mali-G51", "Bifrost", get_num_4, get_num_2, get_num_2, get_num_eng_g51⟩,
  ⟨0x7001, MASK_NEW, 1, "Mali-G76", "Bifrost", get_num_8, get_num_2, get_num_2, get_num_3⟩,
  ⟨0x7002, MASK_NEW, 1, "Mali-G52", "Bifrost", get_num_8, get_num_2, get_num_2, get_num_eng_g52⟩,
  ⟨0x7003, MASK_NEW, 1, "Mali-G31", "Bifrost", get_num_4, get_num_2, get_num_2, get_num_eng_g31⟩,
  ⟨0x9000, MASK_NEW, 1, "Mali-G77", "Valhall", get_num_16, get_num_4, get_num_2, get_num_2⟩,
  ⟨0x9001, MASK_NEW, 1, "Mali-G57", "Valhall", get_num_16, get_num_4, get_num_2, get_num_2⟩,
  ⟨0x9003, MASK_NEW, 1, "Mali-G57", "Valhall", get_num_16, get_num_4, get_num_2, get_num_2⟩,
  ⟨0x9004, MASK_NEW, 1, "Mali-G68", "Valhall", get_num_16, get_num_4, get_num_2, get_num_2⟩,
  ⟨0x9002, MASK_NEW, 1, "Mali-G78", "Valhall", get_num_16, get_num_4, get_num_2, get_num_2⟩,
  ⟨0x9005, MASK_NEW, 1, "Mali-G78AE", "Valhall", get_num_16, get_num_4, get_num_2, get_num_2⟩,
  ⟨0xa002, MASK_NEW, 1, "Mali-G710", "Valhall", get_num_32, get_num_8, get_num_4, get_num_2⟩,
  ⟨0xa007, MASK_NEW, 1, "Mali-G610", "Valhall", get_num_32, get_num_8, get_num_4, get_num_2⟩,
  ⟨0xa003, MASK_NEW, 1, "Mali-G510", "Valhall", get_num_fma_g510, get_num_tex_g510, get_num_pix_g510, get_num_eng_g510⟩,
  ⟨0xa004, MASK_NEW, 1, "Mali-G310", "Valhall", get_num_fma_g510, get_num_tex_g510, get_num_pix_g510, get_num_eng_g510⟩,
  ⟨0xb002, MASK_NEW, 10, "Immortalis-G715", "Valhall", get_num_64, get_num_8, get_num_4, get_num_2⟩,
  ⟨0xb002, MASK_NEW, 7, "Mali-G715", "Valhall", get_num_64, get_num_8, get_num_4, get_num_2⟩,
  ⟨0xb002, MASK_NEW, 1, "Mali-G615", "Valhall", get_num_64, get_num_8, get_num_4, get_num_2⟩,
  ⟨0xb003, MASK_NEW, 1, "Mali-G615", "Valhall", get_num_64, get_num_8, get_num_4, get_num_2⟩,
  ⟨0xc000, MASK_NEW, 10, "Immortalis-G720", "Arm 5th Gen", get_num_64, get_num_8, get_num_4, get_num_2⟩,
  ⟨0xc000, MASK_NEW, 6, "Mali-G720", "Arm 5th Gen", get_num_64, get_num_8, get_num_4, get_num_2⟩,
  ⟨0xc000, MASK_NEW, 1, "Mali-G620", "Arm 5th Gen", get_num_64, get_num_8, get_num_4, get_num_2⟩,
  ⟨0xc001, MASK_NEW, 1, "Mali-G620", "Arm 5th Gen", get_num_64, get_num_8, get_num_4, get_num_2⟩,
  ⟨0xd000, MASK_NEW, 10, "Immortalis-G925", "Arm 5th Gen", get_num_64, get_num_8, get_num_4, get_num_2⟩,
  ⟨0xd000, MASK_NEW, 6, "Mali-G725", "Arm 5th Gen", get_num_64, get_num_8, get_num_4, get_num_2⟩,
  ⟨0xd001, MASK_NEW, 1, "Mali-G625", "Arm 5th Gen", get_num_64, get_num_8, get_num_4, get_num_2⟩,
  ⟨0xe000, MASK_NEW, 10, "Mali G1-Ultra", "Arm 5th Gen", get_num_64, get_num_8, get_num_4, get_num_2⟩,
  ⟨0xe001, MASK_NEW, 6, "Mali G1-Premium", "Arm 5th Gen", get_num_64, get_num_8, get_num_4, get_num_2⟩,
  ⟨0xe003, MASK_NEW, 1, "Mali G1-Pro", "Arm 5th Gen", get_num_64, get_num_8, get_num_4, get_num_2⟩
]

/-- `get_gpu_id`: first table row (in source order) whose mask applied to the
input matches its id; otherwise the input unchanged. -/
def get_gpu_id (input_id : Nat) : Nat :=
  match PRODUCT_VERSIONS.find? (fun entry => input_id &&& entry.mask == entry.id) with
  | some entry => entry.id
  | none => input_id

/-- The rows of the lazily built `product_map()` bucket for `gpu_id` that
satisfy `core_count >= e.min_cores`, in table order (the `HashMap` bucket is
filled by pushing entries in `PRODUCT_VERSIONS` iteration order). -/
def qualifyingRows (gpu_id core_count : Nat) : List ProductEntry :=
  (PRODUCT_VERSIONS.filter (fun e => e.id == gpu_id)).filter
    (fun e => decide (e.min_cores ≤ core_count))

/-- `Iterator::max_by_key(|e| e.min_cores)`: if several rows are equally
maximum, the last one is returned. -/
def maxByMinCores (rows : List ProductEntry) : Option ProductEntry :=
  rows.foldl
    (fun acc e =>
      match acc with
      | none => some e
      | some m => if m.min_cores ≤ e.min_cores then some e else some m)
    none

/-- `lookup_product`, from src/mali/database.rs: among rows with the given id
that admit the observed core count, pick the one with the largest
`min_cores` (last wins on ties). -/
def lookup_product (gpu_id core_count : Nat) : Option ProductEntry :=
  maxByMinCores (qualifyingRows gpu_id core_count)

/-- `extract_architecture`, from src/mali/database.rs: architecture
major/minor from the raw 32/64-bit GPU id register value. -/
def extract_architecture (raw_gpu_id : Nat) : Nat × Nat :=
  let is_64bit_id := (raw_gpu_id >>> 28) &&& 0xF = 0xF
  if ¬is_64bit_id then
    ((raw_gpu_id >>> 28) &&& 0xF, (raw_gpu_id >>> 24) &&& 0xF)
  else
    ((raw_gpu_id >>> 56) &&& 0xFF, (raw_gpu_id >>> 48) &&& 0xFF)

/-- `validate_gpu_info`, from src/mali/database.rs. -/
def validate_gpu_info (info : GpuInfo) : Except GpuError Unit :=
  if info.num_shader_cores = 0 then
    .error (.InvalidData "GPU has zero shader cores")
  else if info.num_l2_bytes = 0 then
    .error (.InvalidData "GPU has zero L2 cache")
  else
    .ok ()

/-- The decode/resolve/assemble tail of `ParityStrategy::query`
(src/mali/query.rs, after `get_properties` returned `props_buffer`).

`1u64 << parsed.l2_log2_cache_size` is embedded with the shift amount
reduced mod 64 and the product mod `2^64` (release-profile Rust semantics;
with overflow checks the shift panics for amounts ≥ 64 — see the C6
result). A missing product-table row is absorbed: the descriptor is built
with empty name/architecture and zero version numbers. -/
def parityAssemble (props_buffer : List Nat) : Except GpuError GpuInfo :=
  let parsed := parse_properties_lenient props_buffer
  let num_l2_bytes :=
    if 0 < parsed.l2_log2_cache_size ∧ 0 < parsed.num_l2_slices then
      ((1 <<< (parsed.l2_log2_cache_size % 64)) * parsed.num_l2_slices) % 2 ^ 64
    else 0
  let r :=
    match lookup_product (get_gpu_id parsed.gpu_id) parsed.num_shader_cores with
    | some product_info =>
      let m := extract_architecture parsed.raw_gpu_id
      (product_info.name, product_info.architecture, m.1, m.2)
    | none => ("", "", 0, 0)
  let mali_data : MaliData :=
    { gpu_id := parsed.gpu_id
      raw_gpu_id := parsed.raw_gpu_id
      shader_core_mask := parsed.shader_core_mask
      num_l2_slices := parsed.num_l2_slices
      num_exec_engines := 0
      num_fp32_fmas_per_core := 0
      num_fp16_fmas_per_core := 0
      num_texels_per_core := 0
      num_pixels_per_core := 0 }
  .ok
    { vendor := .Mali
      gpu_name := r.1
      architecture := r.2.1
      architecture_major := r.2.2.1
      architecture_minor := r.2.2.2
      num_shader_cores := parsed.num_shader_cores
      num_l2_bytes := num_l2_bytes
      num_bus_bits := 0
      mali_data := some mali_data
      adreno_data := none }

/-- The decode/resolve/assemble tail of `ExtendedStrategy::query`
(src/mali/query.rs).  Shift/multiply semantics as in `parityAssemble`;
`u32` products wrap mod `2^32`. -/
def extendedAssemble (props_buffer : List Nat) : Except GpuError GpuInfo :=
  match parse_properties props_buffer ParserConfig.EXTENDED with
  | .error e => .error e
  | .ok parsed =>
    match lookup_product (get_gpu_id parsed.gpu_id) parsed.num_shader_cores with
    | none => .error (.UnsupportedGpu parsed.gpu_id parsed.num_shader_cores)
    | some product_info =>
      let num_exec_engines := product_info.get_num_exec_engines
        parsed.num_shader_cores parsed.raw_core_features parsed.raw_thread_features
      let num_fp32_fmas_per_engine := product_info.get_num_fp32_fmas_per_engine
        parsed.num_shader_cores parsed.raw_core_features parsed.raw_thread_features
      let num_fp32_fmas_per_core := (num_fp32_fmas_per_engine * num_exec_engines) % 2 ^ 32
      let num_texels_per_core := product_info.get_num_texels
        parsed.num_shader_cores parsed.raw_core_features parsed.raw_thread_features
      let num_pixels_per_core := product_info.get_num_pixels
        parsed.num_shader_cores parsed.raw_core_features parsed.raw_thread_features
      let m := extract_architecture parsed.raw_gpu_id
      let num_l2_bytes :=
        ((1 <<< (parsed.l2_log2_cache_size % 64)) * parsed.num_l2_slices) % 2 ^ 64
      let num_bus_bits := 1 <<< (((parsed.raw_l2_features >>> 24) &&& 0xFF) % 64)
      let mali_data : MaliData :=
        { gpu_id := get_gpu_id parsed.gpu_id
          raw_gpu_id := parsed.raw_gpu_id
          shader_core_mask := parsed.shader_core_mask
          num_l2_slices := parsed.num_l2_slices
          num_exec_engines := num_exec_engines
          num_fp32_fmas_per_core := num_fp32_fmas_per_core
          num_fp16_fmas_per_core := (num_fp32_fmas_per_core * 2) % 2 ^ 32
          num_texels_per_core := num_texels_per_core
          num_pixels_per_core := num_pixels_per_core }
      let info : GpuInfo :=
        { vendor := .Mali
          gpu_name := product_info.name
          architecture := product_info.architecture
          architecture_major := m.1
          architecture_minor := m.2
          num_shader_cores := parsed.num_shader_cores
          num_l2_bytes := num_l2_bytes
          num_bus_bits := num_bus_bits
          mali_data := some mali_data
          adreno_data := none }
      match validate_gpu_info info with
      | .error e => .error e
      | .ok _ => .ok info

end Mali

namespace Adreno

/-- Parser configuration, from src/adreno/parser.rs `ParserConfig`. -/
structure ParserConfig where
  lenient_mode : Bool
  validate_chip_id : Bool
  require_mandatory : Bool
  allow_zero_values : Bool
  deriving Repr, DecidableEq

/-- `ParserConfig::PARITY`. -/
def ParserConfig.PARITY : ParserConfig :=
  { lenient_mode := true
    validate_chip_id := false
    require_mandatory := false
    allow_zero_values := true }

/-- `ParserConfig::EXTENDED`. -/
def ParserConfig.EXTENDED : ParserConfig :=
  { lenient_mode := false
    validate_chip_id := true
    require_mandatory := true
    allow_zero_values := false }

/-- Raw fixed-layout structure, from src/adreno/parser.rs `RawDeviceInfo`
(mirrors the kernel's `kgsl_device_info`; eight consecutive little-endian
`u32` fields). -/
structure RawDeviceInfo where
  device_id : Nat
  chip_id : Nat
  mmu_enabled : Nat
  gmem_gpubaseaddr : Nat
  gmem_sizebytes : Nat
  unknown1 : Nat
  unknown2 : Nat
  gpu_model : Nat
  deriving Repr, DecidableEq

/-- `RawDeviceInfo::default()`. -/
def RawDeviceInfo.default : RawDeviceInfo :=
  { device_id := 0, chip_id := 0, mmu_enabled := 0, gmem_gpubaseaddr := 0
    gmem_sizebytes := 0, unknown1 := 0, unknown2 := 0, gpu_model := 0 }

/-- `std::mem::size_of::<RawDeviceInfo>()`: eight `repr(C)` `u32` fields. -/
def rawDeviceInfoSize : Nat := 32

/-- Parsed device info, from src/adreno/parser.rs `ParsedDeviceInfo`. -/
structure ParsedDeviceInfo where
  device_id : Nat
  chip_id : Nat
  mmu_enabled : Bool
  gmem_baseaddr : Nat
  gmem_sizebytes : Nat
  gpu_model : Nat
  arch_major : Nat
  arch_minor : Nat
  generation : Nat
  revision : Nat
  deriving Repr, DecidableEq

/-- `ParsedDeviceInfo::default()`. -/
def ParsedDeviceInfo.default : ParsedDeviceInfo :=
  { device_id := 0, chip_id := 0, mmu_enabled := false, gmem_baseaddr := 0
    gmem_sizebytes := 0, gpu_model := 0, arch_major := 0, arch_minor := 0
    generation := 0, revision := 0 }

/-- `ParsedDeviceInfo::extract_architecture`: split the chip id `0xAABBCCDD`
unconditionally into architecture major/minor, generation and revision
bytes.  (The source returns `Result<(), GpuError>` but never errs.) -/
def ParsedDeviceInfo.extract_architecture (info : ParsedDeviceInfo) : ParsedDeviceInfo :=
  { info with
      arch_major := (info.chip_id >>> 24) &&& 0xFF
      arch_minor := (info.chip_id >>> 16) &&& 0xFF
      generation := (info.chip_id >>> 8) &&& 0xFF
      revision := info.chip_id &&& 0xFF }

/-- `ParsedDeviceInfo::validate_chip_id`. -/
def ParsedDeviceInfo.validate_chip_id (info : ParsedDeviceInfo) : Except GpuError Unit :=
  if info.chip_id = 0 then
    .error (.InvalidData "Chip ID is zero")
  else if info.arch_major < 6 ∨ 9 < info.arch_major then
    .error (.UnsupportedArchitecture info.chip_id
      ("Adreno " ++ toString info.arch_major ++ "xx"))
  else
    .ok ()

/-- `KgslPropertyParser::read_u32`: read a little-endian `u32` at `pos`.
Short reads yield `0` without advancing `pos` in lenient mode, and
`BufferTooSmall` in strict mode.  Returns the value and the new position. -/
def read_u32 (buffer : List Nat) (config : ParserConfig) (pos : Nat) :
    Except GpuError (Nat × Nat) :=
  if buffer.length < pos + 4 then
    if config.lenient_mode then .ok (0, pos)
    else .error (.BufferTooSmall (pos + 4) buffer.length)
  else
    .ok (leNat (readSlice buffer pos 4), pos + 4)

/-- `KgslPropertyParser::parse_raw_device_info`: five mandatory fields at
offsets 0/4/8/12/16; `remaining` is computed once, after the mandatory
fields; two reserved fields are read if `remaining >= 8` and the model-code
field if `remaining >= 12` (both thresholds are taken relative to the end of
the mandatory fields). -/
def parse_raw_device_info (buffer : List Nat) (config : ParserConfig) :
    Except GpuError RawDeviceInfo :=
  match read_u32 buffer config 0 with
  | .error e => .error e
  | .ok (device_id, pos1) =>
  match read_u32 buffer config pos1 with
  | .error e => .error e
  | .ok (chip_id, pos2) =>
  match read_u32 buffer config pos2 with
  | .error e => .error e
  | .ok (mmu_enabled, pos3) =>
  match read_u32 buffer config pos3 with
  | .error e => .error e
  | .ok (gmem_gpubaseaddr, pos4) =>
  match read_u32 buffer config pos4 with
  | .error e => .error e
  | .ok (gmem_sizebytes, pos5) =>
  let remaining := buffer.length - pos5
  match (if 8 ≤ remaining then
      match read_u32 buffer config pos5 with
      | .error e => .error e
      | .ok (u1, q1) =>
        match read_u32 buffer config q1 with
        | .error e => .error e
        | .ok (u2, q2) => .ok (u1, u2, q2)
    else .ok (0, 0, pos5) : Except GpuError (Nat × Nat × Nat)) with
  | .error e => .error e
  | .ok (unknown1, unknown2, pos6) =>
  match (if 12 ≤ remaining then
      match read_u32 buffer config pos6 with
      | .error e => .error e
      | .ok (g, q) => .ok (g, q)
    else .ok (0, pos6) : Except GpuError (Nat × Nat)) with
  | .error e => .error e
  | .ok (gpu_model, _pos7) =>
    .ok
      { device_id := device_id, chip_id := chip_id, mmu_enabled := mmu_enabled
        gmem_gpubaseaddr := gmem_gpubaseaddr, gmem_sizebytes := gmem_sizebytes
        unknown1 := unknown1, unknown2 := unknown2, gpu_model := gpu_model }

/-- `KgslPropertyParser::parse_device_info`: gate on the full fixed-layout
size, decode, derive architecture bytes, then apply the configured
validation and mandatory-field checks. -/
def parse_device_info (buffer : List Nat) (config : ParserConfig) :
    Except GpuError ParsedDeviceInfo :=
  if buffer.length < rawDeviceInfoSize then
    if config.lenient_mode then .ok ParsedDeviceInfo.default
    else .error (.BufferTooSmall rawDeviceInfoSize buffer.length)
  else
    match parse_raw_device_info buffer config with
    | .error e => .error e
    | .ok raw =>
      let info : ParsedDeviceInfo :=
        ParsedDeviceInfo.extract_architecture
          { device_id := raw.device_id
            chip_id := raw.chip_id
            mmu_enabled := raw.mmu_enabled != 0
            gmem_baseaddr := raw.gmem_gpubaseaddr
            gmem_sizebytes := raw.gmem_sizebytes
            gpu_model := raw.gpu_model
            arch_major := 0, arch_minor := 0, generation := 0, revision := 0 }
      match (if config.validate_chip_id then info.validate_chip_id else .ok ()) with
      | .error e => .error e
      | .ok _ =>
        if config.require_mandatory then
          if info.chip_id = 0 then
            .error (.InvalidData "Missing mandatory chip ID")
          else if info.gmem_sizebytes = 0 ∧ config.allow_zero_values = false then
            .error (.InvalidData "GPU memory size is zero")
          else
            .ok info
        else
          .ok info

/-- `parse_device_info_lenient`: Parity-mode wrapper mapping errors to the
all-zero record. -/
def parse_device_info_lenient (buffer : List Nat) : ParsedDeviceInfo :=
  match parse_device_info buffer ParserConfig.PARITY with
  | .ok info => info
  | .error _ => ParsedDeviceInfo.default

/-- Adreno GPU architecture tag, from src/adreno/database.rs `AdrenoArch`. -/
inductive AdrenoArch where
  | A4xx
  | A5xx
  | A6xx
  | A7xx
  | A8xx
  deriving Repr, DecidableEq

/-- `Display for AdrenoArch`. -/
def AdrenoArch.display : AdrenoArch → String
  | .A4xx => "Adreno 4xx"
  | .A5xx => "Adreno 5xx"
  | .A6xx => "Adreno 6xx"
  | .A7xx => "Adreno 7xx"
  | .A8xx => "Adreno 8xx"

/-- Specification confidence, from src/adreno/database.rs `SpecConfidence`. -/
inductive SpecConfidence where
  | Measured
  | ReverseEngineered
  | Heuristic
  deriving Repr, DecidableEq

/-- Modelled from the spec: `SpecConfidence::as_cow` is called by
src/adreno/query.rs but its definition is not among the provided sources;
the spec requires the confidence (`Measured` / `ReverseEngineered` /
`Heuristic`) to be exposed on every successful resolution, so it is taken to
be the display label of src/adreno/database.rs. -/
def SpecConfidence.as_cow : SpecConfidence → String
  | .Measured => "Measured"
  | .ReverseEngineered => "Reverse Engineered"
  | .Heuristic => "Heuristic"

/-- Specification record, from src/adreno/database.rs `AdrenoSpecs`. -/
structure AdrenoSpecs where
  name : String
  architecture : AdrenoArch
  shader_cores : Nat
  stream_processors : Nat
  gmem_size_kb : Nat
  bus_width_bits : Nat
  max_freq_mhz : Nat
  process_nm : Nat
  year : Nat
  snapdragon_models : List String
  confidence : SpecConfidence
  deriving Repr, DecidableEq

/-- `GENERIC_LOW_END_5XX`. -/
def GENERIC_LOW_END_5XX : AdrenoSpecs :=
  { name := "Adreno 5xx (low-end variant)", architecture := .A5xx
    shader_cores := 1, stream_processors := 96, gmem_size_kb := 256
    bus_width_bits := 32, max_freq_mhz := 500, process_nm := 28, year := 2016
    snapdragon_models := ["various 4xx/6xx low-end"], confidence := .Heuristic }

/-- `GENERIC_7XX`. -/
def GENERIC_7XX : AdrenoSpecs :=
  { name := "Adreno 7xx (unknown variant)", architecture := .A7xx
    shader_cores := 5, stream_processors := 1024, gmem_size_kb := 3072
    bus_width_bits := 192, max_freq_mhz := 900, process_nm := 4, year := 2022
    snapdragon_models := ["8 Gen series"], confidence := .Heuristic }

/-- The static chip table `ADRENO_CHIPS` of src/adreno/database.rs, in source
order. -/
def ADRENO_CHIPS : List (Nat × AdrenoSpecs) := [
  (0x07030001, ⟨"Adreno 730", .A7xx, 4, 768, 2048, 128, 900, 4, 2022,
    ["8 Gen 1", "8+ Gen 1"], .Measured⟩),
  (0x07060001, ⟨"Adreno 740", .A7xx, 6, 1024, 3072, 256, 680, 4, 2023,
    ["8 Gen 2"], .Measured⟩),
  (0x07050000, ⟨"Adreno 750", .A7xx, 6, 1536, 4096, 256, 1000, 4, 2023,
    ["8 Gen 3"], .ReverseEngineered⟩),
  (0x06010000, ⟨"Adreno 610", .A6xx, 2, 128, 384, 64, 950, 11, 2019,
    ["460", "662", "665"], .Measured⟩),
  (0x06010001, ⟨"Adreno 618", .A6xx, 2, 256, 512, 64, 825, 8, 2019,
    ["730", "732G", "735G", "SM7150"], .Measured⟩),
  (0x06010500, ⟨"Adreno 619", .A6xx, 2, 256, 512, 64, 950, 8, 2020,
    ["750G", "690", "480"], .Measured⟩),
  (0x06010200, ⟨"Adreno 612/615/616", .A6xx, 2, 256, 768, 64, 850, 10, 2019,
    ["670", "675", "710", "712"], .Heuristic⟩),
  (0x06020000, ⟨"Adreno 620", .A6xx, 2, 256, 768, 64, 750, 8, 2020,
    ["765", "765G", "768G"], .ReverseEngineered⟩),
  (0x05000000, ⟨"Adreno 504/505", .A5xx, 1, 96, 256, 32, 450, 28, 2016,
    ["425", "429", "430", "435", "439"], .ReverseEngineered⟩),
  (0x05060000, ⟨"Adreno 506", .A5xx, 1, 128, 256, 32, 650, 14, 2016,
    ["450", "625", "626", "632"], .Measured⟩),
  (0x05080000, ⟨"Adreno 508", .A5xx, 2, 128, 256, 64, 650, 14, 2017,
    ["630", "632"], .ReverseEngineered⟩),
  (0x05090000, ⟨"Adreno 509", .A5xx, 2, 128, 384, 64, 720, 14, 2017,
    ["636", "638"], .ReverseEngineered⟩),
  (0x05120000, ⟨"Adreno 512", .A5xx, 2, 256, 512, 64, 850, 14, 2017,
    ["660", "662"], .ReverseEngineered⟩),
  (0x05010000, ⟨"Adreno 510", .A5xx, 2, 128, 256, 32, 600, 14, 2016,
    ["430", "435", "616", "617"], .Measured⟩),
  (0x04020000, ⟨"Adreno 530", .A5xx, 3, 256, 512, 64, 624, 14, 2016,
    ["820", "821"], .Measured⟩),
  (0x05020000, ⟨"Adreno 540", .A5xx, 3, 256, 512, 64, 710, 10, 2017,
    ["835"], .Measured⟩),
  (0x04010000, ⟨"Adreno 405", .A4xx, 1, 48, 128, 32, 550, 28, 2014,
    ["415", "425", "610"], .Measured⟩)
]

/-- Tier-3 generic fallback for architecture major `8`. -/
def GENERIC_8XX : AdrenoSpecs :=
  { name := "Adreno 8xx (unknown variant)", architecture := .A8xx
    shader_cores := 8, stream_processors := 2048, gmem_size_kb := 4096
    bus_width_bits := 384, max_freq_mhz := 1100, process_nm := 3, year := 2024
    snapdragon_models := ["8 Elite / future"], confidence := .Heuristic }

/-- Tier-3 generic fallback for architecture major `6`. -/
def GENERIC_6XX : AdrenoSpecs :=
  { name := "Adreno 6xx (unknown low/mid variant)", architecture := .A6xx
    shader_cores := 2, stream_processors := 256, gmem_size_kb := 512
    bus_width_bits := 64, max_freq_mhz := 800, process_nm := 8, year := 2019
    snapdragon_models := ["various 4xx/6xx/7xx low-end"], confidence := .Heuristic }

/-- Tier-3 generic fallback for architecture major `4`. -/
def GENERIC_4XX : AdrenoSpecs :=
  { name := "Adreno 4xx (unknown variant)", architecture := .A4xx
    shader_cores := 1, stream_processors := 48, gmem_size_kb := 128
    bus_width_bits := 32, max_freq_mhz := 550, process_nm := 28, year := 2014
    snapdragon_models := ["various 2xx/4xx low-end"], confidence := .Heuristic }

/-- `find_adreno_specs`, from src/adreno/database.rs: exact id match, then
match on the top 16 bits, then a generic fallback keyed on the top byte
(`8`, `7`, `6`, `5`, `4`), else no match. -/
def find_adreno_specs (chip_id : Nat) : Option AdrenoSpecs :=
  match ADRENO_CHIPS.find? (fun p => p.1 == chip_id) with
  | some p => some p.2
  | none =>
    let base_id := chip_id &&& 0xFFFF0000
    match ADRENO_CHIPS.find? (fun p => p.1 &&& 0xFFFF0000 == base_id) with
    | some p => some p.2
    | none =>
      let major := (chip_id >>> 24) &&& 0xFF
      if major = 8 then some GENERIC_8XX
      else if major = 7 then some GENERIC_7XX
      else if major = 6 then some GENERIC_6XX
      else if major = 5 then some GENERIC_LOW_END_5XX
      else if major = 4 then some GENERIC_4XX
      else none

/-- `KgslDeviceInfo`, from src/adreno/ioctl.rs: the struct filled directly by
the `GETPROPERTY` ioctl. -/
structure KgslDeviceInfo where
  device_id : Nat
  chip_id : Nat
  mmu_enabled : Nat
  gmem_gpubaseaddr : Nat
  gmem_sizebytes : Nat
  unknown1 : Nat
  unknown2 : Nat
  gpu_model : Nat
  deriving Repr, DecidableEq

/-- `create_gpu_info_from_specs`, from src/adreno/query.rs. -/
def create_gpu_info_from_specs (device_info : KgslDeviceInfo)
    (specs : AdrenoSpecs) : GpuInfo :=
  let major := (device_info.chip_id >>> 24) &&& 0xFF
  let minor := (device_info.chip_id >>> 16) &&& 0xFF
  let adreno_data : AdrenoData :=
    { chip_id := device_info.chip_id
      gpu_model_code := device_info.gpu_model
      mmu_enabled := device_info.mmu_enabled != 0
      gmem_size_bytes := device_info.gmem_sizebytes
      spec_confidence := specs.confidence.as_cow
      stream_processors := specs.stream_processors
      max_freq_mhz := specs.max_freq_mhz
      process_nm := specs.process_nm
      release_year := specs.year
      snapdragon_models := specs.snapdragon_models }
  { vendor := .Adreno
    gpu_name := specs.name
    architecture := specs.architecture.display
    architecture_major := major
    architecture_minor := minor
    num_shader_cores := specs.shader_cores
    num_l2_bytes := specs.gmem_size_kb * 1024
    num_bus_bits := specs.bus_width_bits
    mali_data := none
    adreno_data := some adreno_data }

/-- The resolve/assemble tail of `query_adreno_parity` (src/adreno/query.rs,
after `get_device_info` returned `device_info`): a zero chip id is
`InvalidData`, a database miss is `UnsupportedGpu` with the raw chip id and
a core count of 0, otherwise the descriptor is assembled. -/
def parityResolve (device_info : KgslDeviceInfo) : Except GpuError GpuInfo :=
  if device_info.chip_id = 0 then
    .error (.InvalidData "Chip ID is zero")
  else
    match find_adreno_specs device_info.chip_id with
    | none => .error (.UnsupportedGpu device_info.chip_id 0)
    | some specs => .ok (create_gpu_info_from_specs device_info specs)

end Adreno

/-! Concrete example inputs used by the witnesses below. -/

/-- A truncated TLV buffer: a full key (property id 0, width class 3 = 8
bytes) with no value bytes behind it. -/
def c2buf : List Nat := [3, 0, 0, 0]

/-- TLV buffer of the spec's parity scenario: property 1 (u32) = 0x9000, two
core-mask properties 64 and 65 (u32) = 3 and 0, no group count. -/
def c3buf : List Nat :=
  [6, 0, 0, 0, 0, 144, 0, 0, 2, 1, 0, 0, 3, 0, 0, 0, 6, 1, 0, 0, 0, 0, 0, 0]

/-- The record decoded from `c3buf`. -/
def c3props : Mali.ParsedProperties :=
  { gpu_id := 0x9000, l2_log2_cache_size := 0, num_l2_slices := 0
    raw_l2_features := 0, raw_core_features := 0, raw_gpu_id := 0
    raw_thread_features := 0, num_shader_cores := 2, shader_core_mask := 3 }

/-- TLV buffer setting property 14 (`l2_log2_cache_size`, width 8) to 64 and
property 15 (`num_l2_slices`, width 8) to 1. -/
def c6buf : List Nat :=
  [59, 0, 0, 0, 64, 0, 0, 0, 0, 0, 0, 0, 63, 0, 0, 0, 1, 0, 0, 0, 0, 0, 0, 0]

/-- The record decoded from `c6buf`. -/
def c6props : Mali.ParsedProperties :=
  { gpu_id := 0, l2_log2_cache_size := 64, num_l2_slices := 1
    raw_l2_features := 0, raw_core_features := 0, raw_gpu_id := 0
    raw_thread_features := 0, num_shader_cores := 0, shader_core_mask := 0 }

/-- The descriptor `ParityStrategy::query` assembles from an empty property
buffer (no product-table match): empty name and architecture. -/
def c1info : GpuInfo :=
  { vendor := .Mali, gpu_name := "", architecture := ""
    architecture_major := 0, architecture_minor := 0, num_shader_cores := 0
    num_l2_bytes := 0, num_bus_bits := 0
    mali_data := some
      { gpu_id := 0, raw_gpu_id := 0, shader_core_mask := 0, num_l2_slices := 0
        num_exec_engines := 0, num_fp32_fmas_per_core := 0
        num_fp16_fmas_per_core := 0, num_texels_per_core := 0
        num_pixels_per_core := 0 }
    adreno_data := none }

/-- A 32-byte family-B buffer: 20 mandatory bytes, 8 reserved bytes, and 4
further bytes (the little-endian value 42) — only 4 bytes remain past the
two reserved fields. -/
def c4buf32 : List Nat :=
  [1, 0, 0, 0, 1, 0, 3, 7, 1, 0, 0, 0, 0, 0, 0, 0, 0, 1, 0, 0,
   170, 0, 0, 0, 187, 0, 0, 0, 42, 0, 0, 0]

/-- A 20-byte family-B buffer (mandatory fields only). -/
def c4buf20 : List Nat :=
  [1, 0, 0, 0, 1, 0, 3, 7, 1, 0, 0, 0, 0, 0, 0, 0, 0, 1, 0, 0]

/-- The raw record decoded from `c4buf32`: the model code 42 is read. -/
def c4raw32 : Adreno.RawDeviceInfo :=
  { device_id := 1, chip_id := 0x07030001, mmu_enabled := 1
    gmem_gpubaseaddr := 0, gmem_sizebytes := 256, unknown1 := 170
    unknown2 := 187, gpu_model := 42 }

/-- The raw record decoded from `c4buf20`: all optional fields zero. -/
def c4raw20 : Adreno.RawDeviceInfo :=
  { device_id := 1, chip_id := 0x07030001, mmu_enabled := 1
    gmem_gpubaseaddr := 0, gmem_sizebytes := 256, unknown1 := 0
    unknown2 := 0, gpu_model := 0 }

/-- The row `(0xc000, min_cores 6, "Mali-G720")` of `PRODUCT_VERSIONS`. -/
def g720row : Mali.ProductEntry :=
  ⟨0xc000, Mali.MASK_NEW, 6, "Mali-G720", "Arm 5th Gen",
    Mali.get_num_64, Mali.get_num_8, Mali.get_num_4, Mali.get_num_2⟩

/-- A device-info record whose chip id has architecture-major byte 9 and no
table entry at any tier. -/
def c8dev9 : Adreno.KgslDeviceInfo :=
  { device_id := 1, chip_id := 0x09000000, mmu_enabled := 1
    gmem_gpubaseaddr := 0, gmem_sizebytes := 1024, unknown1 := 0
    unknown2 := 0, gpu_model := 0 }

/-- A parsed family-B record with the Adreno 730 chip id. -/
def c9info : Adreno.ParsedDeviceInfo :=
  { device_id := 1, chip_id := 0x07030001, mmu_enabled := true
    gmem_baseaddr := 0, gmem_sizebytes := 2048, gpu_model := 0
    arch_major := 0, arch_minor := 0, generation := 0, revision := 0 }

/-- A device-info record whose chip id has architecture-major byte 10 and no
table entry at any tier. -/
def c1dev : Adreno.KgslDeviceInfo :=
  { device_id := 1, chip_id := 0x0A000000, mmu_enabled := 1
    gmem_gpubaseaddr := 0, gmem_sizebytes := 1024, unknown1 := 0
    unknown2 := 0, gpu_model := 0 }

/-- An fp16-capable Mali detail block. -/
def c10block : MaliData :=
  { gpu_id := 0x9000, raw_gpu_id := 0, shader_core_mask := 255
    num_l2_slices := 2, num_exec_engines := 2, num_fp32_fmas_per_core := 32
    num_fp16_fmas_per_core := 64, num_texels_per_core := 4
    num_pixels_per_core := 2 }

/-- A Mali descriptor with an fp16-capable detail block. -/
def c10mali : GpuInfo :=
  { vendor := .Mali, gpu_name := "Mali-G77", architecture := "Valhall"
    architecture_major := 9, architecture_minor := 0, num_shader_cores := 8
    num_l2_bytes := 1024, num_bus_bits := 64
    mali_data := some c10block
    adreno_data := none }

/-- An Adreno descriptor of architecture major 7. -/
def c10adreno : GpuInfo :=
  { vendor := .Adreno, gpu_name := "Adreno 730", architecture := "Adreno 7xx"
    architecture_major := 7, architecture_minor := 3, num_shader_cores := 4
    num_l2_bytes := 2048 * 1024, num_bus_bits := 128
    mali_data := none
    adreno_data := none }

/-! Helper lemmas about the Mali TLV parse loop. -/

namespace Mali

theorem value_size_of_pos (prop_size : Nat) : 1 ≤ value_size_of prop_size := by
  unfold value_size_of
  split_ifs <;> omega

/-- In lenient mode the parse loop never returns an error. -/
theorem parseLoop_lenient_ok (data : List Nat) (config : ParserConfig)
    (hc : config.lenient_mode = true) :
    ∀ (fuel pos : Nat) (props : ParsedProperties) (ncg cmr : Nat),
      ∃ p, parseLoop data config fuel pos props ncg cmr = .ok p := by
  intro fuel
  induction fuel with
  | zero => exact fun pos props ncg cmr => ⟨_, rfl⟩
  | succ fuel ih =>
    intro pos props ncg cmr
    simp only [parseLoop, hc]
    split_ifs
    · exact ⟨_, rfl⟩
    · exact ⟨_, rfl⟩
    · exact ih _ _ _ _
    · exact ih _ _ _ _

/-- In strict mode the parse loop errs exactly at the truncation point
described by `truncExpectedF`, with a `BufferTooSmall` carrying the expected
and the actual length. -/
theorem parseLoop_strict_trunc (data : List Nat) (config : ParserConfig)
    (hc : config.lenient_mode = false) :
    ∀ (fuel pos : Nat) (props : ParsedProperties) (ncg cmr : Nat),
      (truncExpectedF data fuel pos = none →
        ∃ p, parseLoop data config fuel pos props ncg cmr = .ok p)
      ∧ (∀ exp, truncExpectedF data fuel pos = some exp →
          parseLoop data config fuel pos props ncg cmr
            = .error (.BufferTooSmall exp data.length)) := by
  intro fuel
  induction fuel with
  | zero =>
    intro pos props ncg cmr
    exact ⟨fun _ => ⟨_, rfl⟩, fun exp h => by simp [truncExpectedF] at h⟩
  | succ fuel ih =>
    intro pos props ncg cmr
    have hsz : leNat (readSlice data pos 4) &&& 3 ≤ 3 := Nat.and_le_right
    have h2 : ¬3 < leNat (readSlice data pos 4) &&& 3 := by omega
    by_cases h1 : data.length < pos + 4
    · refine ⟨fun _ => ⟨finalize props, ?_⟩, fun exp hsome => ?_⟩
      · simp only [parseLoop, if_pos h1]
      · simp [truncExpectedF, if_pos h1] at hsome
    · by_cases hv :
        data.length < pos + 4 + value_size_of (leNat (readSlice data pos 4) &&& 3)
      · refine ⟨fun hnone => ?_, fun exp hsome => ?_⟩
        · simp [truncExpectedF, if_neg h1, if_pos hv] at hnone
        · simp only [truncExpectedF, if_neg h1, if_pos hv, Option.some.injEq] at hsome
          simp only [parseLoop, hc, if_neg h1, if_neg h2, if_pos hv]
          simp [hsome]
      · refine ⟨fun hnone => ?_, fun exp hsome => ?_⟩
        · simp only [truncExpectedF, if_neg h1, if_neg hv] at hnone
          simp only [parseLoop, hc, if_neg h1, if_neg h2, if_neg hv]
          exact (ih _ _ _ _).1 hnone
        · simp only [truncExpectedF, if_neg h1, if_neg hv] at hsome
          simp only [parseLoop, hc, if_neg h1, if_neg h2, if_neg hv]
          exact (ih _ _ _ _).2 exp hsome

/-- Any fuel beyond the number of bytes in the buffer is interchangeable: the
exhausted-fuel arm of `parseLoop` is unreachable from `parse_properties`. -/
theorem parseLoop_fuel_irrelevant (data : List Nat) (config : ParserConfig) :
    ∀ (f₁ f₂ pos : Nat) (props : ParsedProperties) (ncg cmr : Nat),
      data.length + 1 ≤ pos + f₁ → data.length + 1 ≤ pos + f₂ →
      parseLoop data config f₁ pos props ncg cmr
        = parseLoop data config f₂ pos props ncg cmr := by
  intro f₁
  induction f₁ with
  | zero =>
    intro f₂ pos props ncg cmr hA hB
    have h1 : data.length < pos + 4 := by omega
    cases f₂ with
    | zero => rfl
    | succ g => simp only [parseLoop, if_pos h1]
  | succ f ih =>
    intro f₂ pos props ncg cmr hA hB
    cases f₂ with
    | zero =>
      have h1 : data.length < pos + 4 := by omega
      simp only [parseLoop, if_pos h1]
    | succ g =>
      by_cases h1 : data.length < pos + 4
      · simp only [parseLoop, if_pos h1]
      · simp only [parseLoop, if_neg h1]
        by_cases h3 : 3 < leNat (readSlice data pos 4) &&& 3
        · simp only [if_pos h3]
        · simp only [if_neg h3]
          by_cases hv :
            data.length < pos + 4 + value_size_of (leNat (readSlice data pos 4) &&& 3)
          · simp only [if_pos hv]
            by_cases hl : config.lenient_mode = true
            · simp only [hl, if_true]
              exact ih _ _ _ _ _ (by omega) (by omega)
            · simp only [hl]
              rfl
          · simp only [if_neg hv]
            exact ih _ _ _ _ _ (by omega) (by omega)

/-- Whatever path the parse loop takes, a successful result has its shader
core count equal to the population count of its core mask. -/
theorem parseLoop_popcount (data : List Nat) (config : ParserConfig) :
    ∀ (fuel pos : Nat) (props : ParsedProperties) (ncg cmr : Nat)
      (p : ParsedProperties),
      parseLoop data config fuel pos props ncg cmr = .ok p →
      p.num_shader_cores = countOnes p.shader_core_mask := by
  intro fuel
  induction fuel with
  | zero =>
    intro pos props ncg cmr p h
    simp only [parseLoop] at h
    cases h
    rfl
  | succ fuel ih =>
    intro pos props ncg cmr p h
    simp only [parseLoop] at h
    split_ifs at h
    · cases h; rfl
    · cases h; rfl
    · exact ih _ _ _ _ _ h
    · exact ih _ _ _ _ _ h

end Mali

/-- Claim C2: for every truncated TLV buffer, parsing under the Parity policy
never returns an error (the stream is silently truncated); the same buffer
under the Extended policy returns a `BufferTooSmall` error carrying the
expected and actual lengths whenever the truncation occurs before a
(mandatory) value field of a record is fully read — `truncExpected` names
exactly those buffers in which some record's 4-byte key is present but its
value bytes are not.  (A trailing partial key of 1–3 bytes ends the stream
silently in both modes.) -/
theorem C2_truncated_tlv_parity_vs_extended :
    ∀ buffer : List Nat,
      resultOk (Mali.parse_properties buffer Mali.ParserConfig.PARITY) = true
      ∧ (∀ exp, Mali.truncExpected buffer = some exp →
          Mali.parse_properties buffer Mali.ParserConfig.EXTENDED
            = .error (.BufferTooSmall exp buffer.length))
      ∧ (Mali.truncExpected buffer = none →
          resultOk (Mali.parse_properties buffer Mali.ParserConfig.EXTENDED) = true) := by
  intro buffer
  refine ⟨?_, ?_, ?_⟩
  · obtain ⟨p, hp⟩ :=
      Mali.parseLoop_lenient_ok buffer Mali.ParserConfig.PARITY rfl (buffer.length + 1) 0 .empty 0 0
    simp [Mali.parse_properties, hp, resultOk]
  · intro exp h
    exact (Mali.parseLoop_strict_trunc buffer Mali.ParserConfig.EXTENDED rfl (buffer.length + 1) 0 .empty 0 0).2 exp h
  · intro h
    obtain ⟨p, hp⟩ := (Mali.parseLoop_strict_trunc buffer Mali.ParserConfig.EXTENDED rfl (buffer.length + 1) 0 .empty 0 0).1 h
    simp [Mali.parse_properties, hp, resultOk]

/-- Witness for C2 at the concrete truncated buffer `c2buf`: Parity succeeds,
Extended fails with `BufferTooSmall` (expected 12 bytes, got 4). -/
theorem C2_truncated_tlv_parity_vs_extended_witness :
    resultOk (Mali.parse_properties c2buf Mali.ParserConfig.PARITY) = true
    ∧ Mali.parse_properties c2buf Mali.ParserConfig.EXTENDED
        = .error (.BufferTooSmall 12 4) := by
  obtain ⟨h1, h2, _⟩ := C2_truncated_tlv_parity_vs_extended c2buf
  exact ⟨h1, by simpa [c2buf] using h2 12 rfl⟩

/-- Claim C3: for every TLV input buffer and every parser configuration, the
`num_shader_cores` field of a successfully parsed record equals the
population count of its `shader_core_mask` field (it is recomputed from the
mask when the parse loop finishes). -/
theorem C3_shader_cores_popcount :
    ∀ (buffer : List Nat) (config : Mali.ParserConfig)
      (props : Mali.ParsedProperties),
      Mali.parse_properties buffer config = .ok props →
      props.num_shader_cores = countOnes props.shader_core_mask :=
  fun buffer config props h =>
    Mali.parseLoop_popcount buffer config _ 0 .empty 0 0 props h

/-- Witness for C3 at the concrete buffer `c3buf` (core masks 3 and 0, so the
mask is 3 and the core count 2). -/
theorem C3_shader_cores_popcount_witness :
    Mali.parse_properties c3buf Mali.ParserConfig.PARITY = .ok c3props
    ∧ c3props.num_shader_cores = countOnes c3props.shader_core_mask := by
  have h : Mali.parse_properties c3buf Mali.ParserConfig.PARITY = .ok c3props := by rfl
  exact ⟨h, C3_shader_cores_popcount c3buf _ c3props h⟩

/-! Helper lemmas about the family-B fixed-layout decoder. -/

namespace Adreno

/-- `read_u32` at an in-bounds position reads the little-endian 4-byte slice
and advances, under every configuration. -/
theorem read_u32_in_bounds (buffer : List Nat) (config : ParserConfig) (pos : Nat)
    (h : pos + 4 ≤ buffer.length) :
    read_u32 buffer config pos = .ok (leNat (readSlice buffer pos 4), pos + 4) := by
  unfold read_u32
  rw [if_neg (by omega)]

/-- What `parse_raw_device_info` produces on any buffer holding at least the
20 mandatory bytes, for every configuration: the five mandatory fields at
offsets 0/4/8/12/16, the reserved pair at 20/24 only when at least 8 bytes
remain past the mandatory fields, and the model code at offset 28 only when
at least 12 bytes remain past the mandatory fields; optional fields are zero
otherwise. -/
theorem parse_raw_device_info_spec (buffer : List Nat) (config : ParserConfig)
    (h : 20 ≤ buffer.length) :
    parse_raw_device_info buffer config = .ok
      { device_id := leNat (readSlice buffer 0 4)
        chip_id := leNat (readSlice buffer 4 4)
        mmu_enabled := leNat (readSlice buffer 8 4)
        gmem_gpubaseaddr := leNat (readSlice buffer 12 4)
        gmem_sizebytes := leNat (readSlice buffer 16 4)
        unknown1 := if 8 ≤ buffer.length - 20 then leNat (readSlice buffer 20 4) else 0
        unknown2 := if 8 ≤ buffer.length - 20 then leNat (readSlice buffer 24 4) else 0
        gpu_model := if 12 ≤ buffer.length - 20 then leNat (readSlice buffer 28 4) else 0 } := by
  unfold parse_raw_device_info
  rw [read_u32_in_bounds buffer config 0 (by omega)]
  dsimp only
  rw [read_u32_in_bounds buffer config 4 (by omega)]
  dsimp only
  rw [read_u32_in_bounds buffer config 8 (by omega)]
  dsimp only
  rw [read_u32_in_bounds buffer config 12 (by omega)]
  dsimp only
  rw [read_u32_in_bounds buffer config 16 (by omega)]
  dsimp only
  by_cases h8 : 8 ≤ buffer.length - 20
  · rw [if_pos h8, read_u32_in_bounds buffer config 20 (by omega)]
    dsimp only
    rw [read_u32_in_bounds buffer config 24 (by omega)]
    dsimp only
    by_cases h12 : 12 ≤ buffer.length - 20
    · rw [if_pos h12, read_u32_in_bounds buffer config 28 (by omega)]
      dsimp only
      rw [if_pos h8, if_pos h8, if_pos h12]
    · rw [if_neg h12]
      dsimp only
      rw [if_pos h8, if_pos h8, if_neg h12]
  · have h12 : ¬12 ≤ buffer.length - 20 := by omega
    rw [if_neg h8]
    dsimp only
    rw [if_neg h12]
    dsimp only
    rw [if_neg h8, if_neg h8, if_neg h12]

/-- Parity-mode `parse_device_info` never errors: short buffers yield the
all-zero record, and for long enough buffers every validation is skipped. -/
theorem parse_device_info_lenient_ok (buffer : List Nat) :
    ∃ info, parse_device_info buffer ParserConfig.PARITY = .ok info := by
  unfold parse_device_info
  by_cases h : buffer.length < rawDeviceInfoSize
  · rw [if_pos h]
    exact ⟨_, rfl⟩
  · rw [if_neg h,
      parse_raw_device_info_spec buffer _ (by unfold rawDeviceInfoSize at h; omega)]
    exact ⟨_, rfl⟩

end Adreno

/-- Claim C1 counterexample: for the empty Mali property buffer, resolution
fails (`lookup_product` finds nothing), yet the Parity query succeeds with
an empty-named descriptor instead of propagating `UnsupportedGpu`. -/
theorem C1_parity_error_propagation_counterexample :
    Mali.lookup_product (Mali.get_gpu_id (Mali.parse_properties_lenient []).gpu_id)
        (Mali.parse_properties_lenient []).num_shader_cores = none
    ∧ Mali.parityAssemble [] = .ok c1info :=
  ⟨rfl, rfl⟩

/-- Claim C1 (amended): in Parity mode, decode-stage malformed input is
absorbed in both pipelines (the Mali Parity assembly is total, and the
family-B lenient decode never errors); a resolution failure propagates as
`UnsupportedGpu` in the Adreno Parity pipeline, but the Mali Parity pipeline
absorbs it as well, producing a descriptor instead of an error. -/
theorem C1_parity_error_propagation_amended :
    (∀ props_buffer : List Nat, resultOk (Mali.parityAssemble props_buffer) = true)
    ∧ (∀ buffer : List Nat,
        resultOk (Adreno.parse_device_info buffer Adreno.ParserConfig.PARITY) = true)
    ∧ (∀ dev : Adreno.KgslDeviceInfo, dev.chip_id ≠ 0 →
        Adreno.find_adreno_specs dev.chip_id = none →
        Adreno.parityResolve dev = .error (.UnsupportedGpu dev.chip_id 0)) := by
  refine ⟨fun _ => rfl, fun buffer => ?_, fun dev h0 hnone => ?_⟩
  · obtain ⟨info, hi⟩ := Adreno.parse_device_info_lenient_ok buffer
    simp [hi, resultOk]
  · unfold Adreno.parityResolve
    rw [if_neg h0, hnone]

/-- Witness for C1 (amended) at concrete inputs: the empty Mali buffer and a
device record with an unknown chip id of architecture major 9. -/
theorem C1_parity_error_propagation_witness :
    resultOk (Mali.parityAssemble []) = true
    ∧ resultOk (Adreno.parse_device_info [] Adreno.ParserConfig.PARITY) = true
    ∧ Adreno.parityResolve c1dev = .error (.UnsupportedGpu 0x0A000000 0) := by
  obtain ⟨h1, h2, h3⟩ := C1_parity_error_propagation_amended
  exact ⟨h1 [], h2 [], h3 c1dev (by decide) rfl⟩

/-- Claim C4 counterexample: a 32-byte buffer leaves only 4 bytes past the
two reserved fields, yet the decoder fills the model-code field (with 42
here) rather than leaving it at zero. -/
theorem C4_fixed_layout_counterexample :
    c4buf32.length = 32
    ∧ Adreno.parse_raw_device_info c4buf32 Adreno.ParserConfig.PARITY = .ok c4raw32
    ∧ c4raw32.gpu_model = 42 :=
  ⟨rfl, rfl, rfl⟩

/-- Claim C4 (amended): the family-B fixed-layout decoder reads five
mandatory 32-bit little-endian fields at offsets 0/4/8/12/16; it reads the
two reserved fields only when at least 8 more bytes remain beyond the
mandatory 20 bytes, and the model-code field only when at least 12 more
bytes remain beyond the mandatory 20 bytes (i.e. at least 4 bytes past the
reserved pair); buffers too short for an optional field leave it at zero. -/
theorem C4_fixed_layout_amended :
    ∀ (buffer : List Nat) (config : Adreno.ParserConfig), 20 ≤ buffer.length →
      Adreno.parse_raw_device_info buffer config = .ok
        { device_id := leNat (readSlice buffer 0 4)
          chip_id := leNat (readSlice buffer 4 4)
          mmu_enabled := leNat (readSlice buffer 8 4)
          gmem_gpubaseaddr := leNat (readSlice buffer 12 4)
          gmem_sizebytes := leNat (readSlice buffer 16 4)
          unknown1 := if 8 ≤ buffer.length - 20 then leNat (readSlice buffer 20 4) else 0
          unknown2 := if 8 ≤ buffer.length - 20 then leNat (readSlice buffer 24 4) else 0
          gpu_model := if 12 ≤ buffer.length - 20 then leNat (readSlice buffer 28 4) else 0 } :=
  fun buffer config h => Adreno.parse_raw_device_info_spec buffer config h

/-- Witness for C4 (amended) at the 20-byte buffer `c4buf20`: mandatory
fields decoded, optional fields zero. -/
theorem C4_fixed_layout_witness :
    Adreno.parse_raw_device_info c4buf20 Adreno.ParserConfig.EXTENDED = .ok c4raw20 := by
  rw [C4_fixed_layout_amended c4buf20 Adreno.ParserConfig.EXTENDED (by decide)]
  rfl

/-! Helper lemmas about the Mali product lookup. -/

namespace Mali

/-- The `max_by_key` fold yields the accumulator or a list element. -/
theorem maxByMinCores_foldl_mem :
    ∀ (rows : List ProductEntry) (acc : Option ProductEntry) (e : ProductEntry),
      rows.foldl
        (fun acc e =>
          match acc with
          | none => some e
          | some m => if m.min_cores ≤ e.min_cores then some e else some m)
        acc = some e →
      acc = some e ∨ e ∈ rows := by
  intro rows
  induction rows with
  | nil =>
    intro acc e h
    exact Or.inl h
  | cons x xs ih =>
    intro acc e h
    rw [List.foldl_cons] at h
    rcases ih _ e h with hacc | hmem
    · cases acc with
      | none =>
        simp only [Option.some.injEq] at hacc
        exact Or.inr (hacc ▸ List.mem_cons_self x xs)
      | some m =>
        by_cases hc : m.min_cores ≤ x.min_cores
        · simp only [if_pos hc, Option.some.injEq] at hacc
          exact Or.inr (hacc ▸ List.mem_cons_self x xs)
        · simp only [if_neg hc] at hacc
          exact Or.inl hacc
    · exact Or.inr (List.mem_cons_of_mem x hmem)

/-- The `max_by_key` fold yields an element whose `min_cores` dominates every
list element and the accumulator. -/
theorem maxByMinCores_foldl_ge :
    ∀ (rows : List ProductEntry) (acc : Option ProductEntry) (e : ProductEntry),
      rows.foldl
        (fun acc e =>
          match acc with
          | none => some e
          | some m => if m.min_cores ≤ e.min_cores then some e else some m)
        acc = some e →
      (∀ x ∈ rows, x.min_cores ≤ e.min_cores)
      ∧ (∀ a, acc = some a → a.min_cores ≤ e.min_cores) := by
  intro rows
  induction rows with
  | nil =>
    intro acc e h
    rw [List.foldl_nil] at h
    refine ⟨fun x hx => absurd hx (List.not_mem_nil x), fun a ha => ?_⟩
    rw [ha] at h
    cases h
    exact Nat.le_refl _
  | cons x xs ih =>
    intro acc e h
    rw [List.foldl_cons] at h
    obtain ⟨H1, H2⟩ := ih _ e h
    have hx : x.min_cores ≤ e.min_cores := by
      cases acc with
      | none => exact H2 x rfl
      | some m =>
        by_cases hc : m.min_cores ≤ x.min_cores
        · exact H2 x (by simp only [if_pos hc])
        · exact Nat.le_trans (Nat.le_of_not_le hc) (H2 m (by simp only [if_neg hc]))
    refine ⟨fun y hy => ?_, fun a ha => ?_⟩
    · rcases List.mem_cons.mp hy with hyx | hyxs
      · exact hyx ▸ hx
      · exact H1 y hyxs
    · cases acc with
      | none => cases ha
      | some m =>
        cases ha
        by_cases hc : a.min_cores ≤ x.min_cores
        · exact Nat.le_trans hc hx
        · exact H2 a (by simp only [if_neg hc])

/-- `lookup_product` returns a row with the sought id whose minimum-core
threshold is admissible and maximal among the qualifying rows. -/
theorem lookup_product_spec (gpu_id core_count : Nat) (e : ProductEntry)
    (h : lookup_product gpu_id core_count = some e) :
    e.id = gpu_id ∧ e.min_cores ≤ core_count
    ∧ ∀ m ∈ (qualifyingRows gpu_id core_count).map ProductEntry.min_cores,
        m ≤ e.min_cores := by
  unfold lookup_product maxByMinCores at h
  rcases maxByMinCores_foldl_mem _ none e h with h' | hmem
  · cases h'
  · obtain ⟨hin1, hcc⟩ := List.mem_filter.mp hmem
    obtain ⟨_, hid⟩ := List.mem_filter.mp hin1
    refine ⟨by simpa using hid, of_decide_eq_true hcc, fun m hm => ?_⟩
    obtain ⟨y, hy, hym⟩ := List.mem_map.mp hm
    exact hym ▸ (maxByMinCores_foldl_ge _ none e h).1 y hy

end Mali

/-- Claim C5: rows sharing a masked identifier are disambiguated by the
largest minimum-core threshold that is at most the observed core count; the
0xc000 bucket (thresholds 10/6/1) resolves a core count of 6 to the
threshold-6 row ("Mali-G720") and a core count of 5 to the threshold-1 row
("Mali-G620").  (No two rows of the shipped table share both an id and a
threshold, so the tie-break by table order is vacuous there.) -/
theorem C5_masked_match_tiebreak :
    (∀ (gpu_id core_count : Nat) (e : Mali.ProductEntry),
      Mali.lookup_product gpu_id core_count = some e →
      e.id = gpu_id ∧ e.min_cores ≤ core_count
      ∧ ∀ m ∈ (Mali.qualifyingRows gpu_id core_count).map Mali.ProductEntry.min_cores,
          m ≤ e.min_cores)
    ∧ (Mali.lookup_product 0xc000 6).map (fun e => (e.name, e.min_cores))
        = some ("Mali-G720", 6)
    ∧ (Mali.lookup_product 0xc000 5).map (fun e => (e.name, e.min_cores))
        = some ("Mali-G620", 1) :=
  ⟨Mali.lookup_product_spec, rfl, rfl⟩

/-- Witness for C5: the row picked for `(0xc000, 6)` is the threshold-6 row,
and it dominates the threshold-1 row of the same bucket. -/
theorem C5_masked_match_tiebreak_witness :
    g720row.id = 0xc000 ∧ g720row.min_cores ≤ 6 ∧ 1 ≤ g720row.min_cores := by
  have h := C5_masked_match_tiebreak.1 0xc000 6 g720row rfl
  exact ⟨h.1, h.2.1, h.2.2 1 (by decide)⟩

/-- Claim C6 (failing input): a well-formed TLV buffer decoded without error
by both policies yields `l2_log2_cache_size = 64` and a positive
`num_l2_slices`, so both query paths reach `1u64 << 64` (an overflowing
64-bit shift) when assembling `num_l2_bytes`. -/
theorem C6_shift_overflow_failing_input :
    Mali.parse_properties c6buf Mali.ParserConfig.EXTENDED = .ok c6props
    ∧ Mali.parse_properties_lenient c6buf = c6props
    ∧ 64 ≤ c6props.l2_log2_cache_size
    ∧ 0 < c6props.num_l2_slices :=
  ⟨rfl, rfl, by decide, by decide⟩

/-- Claim C7: during TLV parsing a core-group mask property (id 64..79) is
OR-accumulated into the aggregate mask exactly when (a) no group count has
been seen and the policy accepts masks without a group count, or (b) its
group index is below the observed group count, or (c) it is out of bounds
(a group count was seen and the index is not below it) but the policy does
not skip out-of-bounds masks. -/
theorem C7_core_mask_acceptance :
    ∀ (config : Mali.ParserConfig) (prop_id value : Nat)
      (props : Mali.ParsedProperties) (ncg cmr : Nat),
      64 ≤ prop_id → prop_id ≤ 79 →
      (Mali.applyProp config prop_id value props ncg cmr).1.shader_core_mask
        = if (ncg = 0 ∧ config.accept_masks_without_groups = true)
            ∨ prop_id - 64 < ncg
            ∨ (0 < ncg ∧ ncg ≤ prop_id - 64 ∧ config.skip_out_of_bounds_masks = false)
          then props.shader_core_mask ||| value
          else props.shader_core_mask := by
  intro config prop_id value props ncg cmr h64 h79
  unfold Mali.applyProp
  have dk : prop_id ≠ 1 ∧ prop_id ≠ 14 ∧ prop_id ≠ 15 ∧ prop_id ≠ 29
      ∧ prop_id ≠ 30 ∧ prop_id ≠ 55 ∧ prop_id ≠ 59 ∧ prop_id ≠ 62 := by omega
  obtain ⟨d1, d14, d15, d29, d30, d55, d59, d62⟩ := dk
  rw [if_neg d1, if_neg d14, if_neg d15, if_neg d29, if_neg d30, if_neg d55,
    if_neg d59, if_neg d62, if_pos ⟨h64, h79⟩]
  unfold Mali.handle_core_mask
  by_cases hn : ncg = 0
  · cases hA : config.accept_masks_without_groups with
    | true => simp [hn, hA]
    | false => simp [hn, hA]
  · by_cases hg : prop_id - 64 < ncg
    · simp [hn, hg]
    · cases hS : config.skip_out_of_bounds_masks with
      | true => simp [hn, hg, hS]
      | false => simp [hn, hg, hS, Nat.pos_of_ne_zero hn, Nat.le_of_not_lt hg]

/-- Witness for C7: a mask property with id 64 and value 3, no group count
seen, under the Parity policy. -/
theorem C7_core_mask_acceptance_witness :
    (Mali.applyProp Mali.ParserConfig.PARITY 64 3 Mali.ParsedProperties.empty 0 0).1.shader_core_mask
      = if (0 = 0 ∧ Mali.ParserConfig.PARITY.accept_masks_without_groups = true)
          ∨ 64 - 64 < 0
          ∨ (0 < 0 ∧ 0 ≤ 64 - 64 ∧ Mali.ParserConfig.PARITY.skip_out_of_bounds_masks = false)
        then Mali.ParsedProperties.empty.shader_core_mask ||| 3
        else Mali.ParsedProperties.empty.shader_core_mask :=
  C7_core_mask_acceptance Mali.ParserConfig.PARITY 64 3 Mali.ParsedProperties.empty 0 0
    (by decide) (by decide)

/-- Claim C8: with no exact and no top-16-bit match, a generic record exists
exactly when the top byte of the chip id is in 4..8, and on a miss the
Parity query fails with `UnsupportedGpu` carrying the raw chip id and a core
count of 0. -/
theorem C8_generic_fallback :
    ∀ chip_id : Nat,
      Adreno.ADRENO_CHIPS.find? (fun p => p.1 == chip_id) = none →
      Adreno.ADRENO_CHIPS.find?
          (fun p => p.1 &&& 0xFFFF0000 == chip_id &&& 0xFFFF0000) = none →
      ((Adreno.find_adreno_specs chip_id).isSome = true
          ↔ (chip_id >>> 24) &&& 0xFF ∈ [4, 5, 6, 7, 8])
      ∧ (Adreno.find_adreno_specs chip_id = none →
          ∀ dev : Adreno.KgslDeviceInfo, dev.chip_id = chip_id → chip_id ≠ 0 →
            Adreno.parityResolve dev = .error (.UnsupportedGpu chip_id 0)) := by
  intro chip_id h1 h2
  constructor
  · unfold Adreno.find_adreno_specs
    rw [h1]
    dsimp only
    rw [h2]
    dsimp only
    split_ifs with m8 m7 m6 m5 m4
    · simp [m8]
    · simp [m7]
    · simp [m6]
    · simp [m5]
    · simp [m4]
    · simp [m8, m7, m6, m5, m4]
  · intro hnone dev hdev h0
    unfold Adreno.parityResolve
    rw [hdev, if_neg h0, hnone]

/-- Witness for C8: chip id `0x08123456` (top byte 8, no table match) gets a
generic record; chip id `0x09000000` (top byte 9) makes the Parity query
fail with `UnsupportedGpu`. -/
theorem C8_generic_fallback_witness :
    (Adreno.find_adreno_specs 0x08123456).isSome = true
    ∧ Adreno.parityResolve c8dev9 = .error (.UnsupportedGpu 0x09000000 0) := by
  have hpos := C8_generic_fallback 0x08123456 rfl rfl
  have hneg := C8_generic_fallback 0x09000000 rfl rfl
  exact ⟨hpos.1.mpr (by decide), hneg.2 rfl c8dev9 rfl (by decide)⟩

/-- Reassembling four extracted bytes reproduces any 32-bit value. -/
theorem or_eq_add_of_lt {i b : Nat} (a : Nat) (h : b < 2 ^ i) :
    a * 2 ^ i ||| b = a * 2 ^ i + b := by
  rw [Nat.mul_comm]
  exact (Nat.mul_add_lt_is_or h a).symm

/-- Byte decomposition of a 32-bit value recomposes to the value. -/
theorem byte_recompose (x : Nat) (hx : x < 2 ^ 32) :
    ((x >>> 24) &&& 0xFF) <<< 24 ||| ((x >>> 16) &&& 0xFF) <<< 16
      ||| ((x >>> 8) &&& 0xFF) <<< 8 ||| (x &&& 0xFF) = x := by
  have h255 : (255 : Nat) = 2 ^ 8 - 1 := by norm_num
  rw [h255, Nat.and_pow_two_sub_one_eq_mod, Nat.and_pow_two_sub_one_eq_mod,
    Nat.and_pow_two_sub_one_eq_mod, Nat.and_pow_two_sub_one_eq_mod,
    Nat.shiftRight_eq_div_pow, Nat.shiftRight_eq_div_pow, Nat.shiftRight_eq_div_pow,
    Nat.shiftLeft_eq, Nat.shiftLeft_eq, Nat.shiftLeft_eq]
  have hb1 : x / 2 ^ 16 % 2 ^ 8 * 2 ^ 16 < 2 ^ 24 := by
    have h := Nat.mod_lt (x / 2 ^ 16) (show 0 < 2 ^ 8 by positivity)
    calc x / 2 ^ 16 % 2 ^ 8 * 2 ^ 16 < 2 ^ 8 * 2 ^ 16 :=
          mul_lt_mul_of_pos_right h (by positivity)
      _ = 2 ^ 24 := by norm_num
  have hb2 : x / 2 ^ 8 % 2 ^ 8 * 2 ^ 8 < 2 ^ 16 := by
    have h := Nat.mod_lt (x / 2 ^ 8) (show 0 < 2 ^ 8 by positivity)
    calc x / 2 ^ 8 % 2 ^ 8 * 2 ^ 8 < 2 ^ 8 * 2 ^ 8 :=
          mul_lt_mul_of_pos_right h (by positivity)
      _ = 2 ^ 16 := by norm_num
  have hb3 : x % 2 ^ 8 < 2 ^ 8 := Nat.mod_lt _ (by positivity)
  rw [or_eq_add_of_lt _ hb1]
  have e2 : x / 2 ^ 24 % 2 ^ 8 * 2 ^ 24 + x / 2 ^ 16 % 2 ^ 8 * 2 ^ 16
      = (x / 2 ^ 24 % 2 ^ 8 * 2 ^ 8 + x / 2 ^ 16 % 2 ^ 8) * 2 ^ 16 := by ring
  rw [e2, or_eq_add_of_lt _ hb2]
  have e3 : (x / 2 ^ 24 % 2 ^ 8 * 2 ^ 8 + x / 2 ^ 16 % 2 ^ 8) * 2 ^ 16
        + x / 2 ^ 8 % 2 ^ 8 * 2 ^ 8
      = ((x / 2 ^ 24 % 2 ^ 8 * 2 ^ 8 + x / 2 ^ 16 % 2 ^ 8) * 2 ^ 8
          + x / 2 ^ 8 % 2 ^ 8) * 2 ^ 8 := by ring
  rw [e3, or_eq_add_of_lt _ hb3]
  simp only [show (2 : Nat) ^ 8 = 256 by norm_num,
    show (2 : Nat) ^ 16 = 65536 by norm_num,
    show (2 : Nat) ^ 24 = 16777216 by norm_num,
    show (2 : Nat) ^ 32 = 4294967296 by norm_num] at hx ⊢
  omega

/-- Claim C9: the unconditional decomposition of a 32-bit chip identifier
into (architecture major, architecture minor, generation, revision) bytes
recomposes to the original identifier. -/
theorem C9_chip_id_roundtrip :
    ∀ info : Adreno.ParsedDeviceInfo, info.chip_id < 2 ^ 32 →
      (info.extract_architecture.arch_major <<< 24)
        ||| (info.extract_architecture.arch_minor <<< 16)
        ||| (info.extract_architecture.generation <<< 8)
        ||| info.extract_architecture.revision = info.chip_id := by
  intro info h
  exact byte_recompose info.chip_id h

/-- Witness for C9 at chip id `0x07030001`. -/
theorem C9_chip_id_roundtrip_witness :
    (c9info.extract_architecture.arch_major <<< 24)
      ||| (c9info.extract_architecture.arch_minor <<< 16)
      ||| (c9info.extract_architecture.generation <<< 8)
      ||| c9info.extract_architecture.revision = c9info.chip_id :=
  C9_chip_id_roundtrip c9info (by decide)

/-- Claim C10: `supports_fp16` is `num_fp16_fmas_per_core > 0` for Mali
descriptors with a detail block (`false` without one), `architecture_major
>= 6` for Adreno descriptors, and `false` for Unknown-vendor descriptors. -/
theorem C10_supports_fp16_spec :
    ∀ info : GpuInfo,
      (info.vendor = .Mali → ∀ mali : MaliData, info.mali_data = some mali →
        (info.supports_fp16 = true ↔ 0 < mali.num_fp16_fmas_per_core))
      ∧ (info.vendor = .Mali → info.mali_data = none → info.supports_fp16 = false)
      ∧ (info.vendor = .Adreno →
          (info.supports_fp16 = true ↔ 6 ≤ info.architecture_major))
      ∧ (info.vendor = .Unknown → info.supports_fp16 = false) := by
  intro info
  refine ⟨fun hv mali hm => ?_, fun hv hm => ?_, fun hv => ?_, fun hv => ?_⟩
  · unfold GpuInfo.supports_fp16
    rw [hv, hm]
    simp
  · unfold GpuInfo.supports_fp16
    rw [hv, hm]
  · unfold GpuInfo.supports_fp16
    rw [hv]
    simp
  · unfold GpuInfo.supports_fp16
    rw [hv]

/-- Witness for C10 at a Mali descriptor with an fp16-capable block and an
Adreno descriptor of architecture major 7. -/
theorem C10_supports_fp16_witness :
    (c10mali.supports_fp16 = true ↔ 0 < c10block.num_fp16_fmas_per_core)
    ∧ (c10adreno.supports_fp16 = true ↔ 6 ≤ c10adreno.architecture_major) :=
  ⟨(C10_supports_fp16_spec c10mali).1 rfl c10block rfl,
    (C10_supports_fp16_spec c10adreno).2.2.1 rfl⟩

end Gpuinfo
